import Mathlib

/-!
Verification of the OpenThreat vulnerability pipeline against its
specification.  The Python sources under `backend/` are shallowly embedded:
numeric scores are rationals, timestamps are integers (epoch seconds),
optional values are `Option`, and Python truthiness is made explicit.
-/

namespace OpenThreat

/-! ## Python-style helpers -/

/-- Python `round(x, 3)` rounds half to even.  `rhe x` is the integer
nearest to `x`, ties going to the even integer. -/
def rhe (x : ℚ) : ℤ :=
  let f : ℤ := Rat.floor x
  let r : ℚ := x - (f : ℚ)
  if r < 1/2 then f
  else if 1/2 < r then f + 1
  else if f % 2 = 0 then f else f + 1

/-- Round a rational to 3 decimal places, half to even (Python `round(x, 3)`). -/
def round3 (x : ℚ) : ℚ := ((rhe (1000 * x) : ℚ)) / 1000

theorem ratFloor_eq_floor (x : ℚ) : Rat.floor x = ⌊x⌋ := by
  rw [Rat.floor_def', Rat.floor_def]

theorem floor_le_rhe (x : ℚ) : ⌊x⌋ ≤ rhe x := by
  unfold rhe
  rw [ratFloor_eq_floor]
  dsimp only
  split
  · exact le_refl _
  · split
    · exact le_of_lt (lt_add_one _)
    · split
      · exact le_refl _
      · exact le_of_lt (lt_add_one _)

theorem rhe_le_floor_add_one (x : ℚ) : rhe x ≤ ⌊x⌋ + 1 := by
  unfold rhe
  rw [ratFloor_eq_floor]
  dsimp only
  split
  · exact le_of_lt (lt_add_one _)
  · split
    · exact le_refl _
    · split
      · exact le_of_lt (lt_add_one _)
      · exact le_refl _

theorem rhe_intCast (n : ℤ) : rhe (n : ℚ) = n := by
  unfold rhe
  rw [ratFloor_eq_floor]
  simp

theorem rhe_nonneg (x : ℚ) (h : 0 ≤ x) : 0 ≤ rhe x := by
  have h1 : (0 : ℤ) ≤ ⌊x⌋ := by
    exact Int.floor_nonneg.mpr h
  exact le_trans h1 (floor_le_rhe x)

theorem rhe_le_of_le_int (x : ℚ) (n : ℤ) (h : x ≤ (n : ℚ)) : rhe x ≤ n := by
  by_cases hx : x = (n : ℚ)
  · rw [hx, rhe_intCast]
  · have hlt : x < (n : ℚ) := lt_of_le_of_ne h hx
    have hfl : ⌊x⌋ + 1 ≤ n := by
      have : ⌊x⌋ < n := by
        exact Int.floor_lt.mpr (by exact_mod_cast hlt)
      omega
    exact le_trans (rhe_le_floor_add_one x) hfl

theorem rhe_ge_of_int_le (x : ℚ) (n : ℤ) (h : (n : ℚ) ≤ x) : n ≤ rhe x := by
  have hfl : n ≤ ⌊x⌋ := Int.le_floor.mpr (by exact_mod_cast h)
  exact le_trans hfl (floor_le_rhe x)

theorem round3_bounds_low (x : ℚ) (h : 0 ≤ x) : 0 ≤ round3 x := by
  unfold round3
  have h1 : (0 : ℤ) ≤ rhe (1000 * x) := rhe_nonneg _ (by positivity)
  have h2 : (0 : ℚ) ≤ (rhe (1000 * x) : ℚ) := by exact_mod_cast h1
  positivity

theorem round3_le_one (x : ℚ) (h : x ≤ 1) : round3 x ≤ 1 := by
  unfold round3
  have h1 : rhe (1000 * x) ≤ (1000 : ℤ) := by
    apply rhe_le_of_le_int
    push_cast
    linarith
  have h2 : ((rhe (1000 * x)) : ℚ) ≤ 1000 := by exact_mod_cast h1
  linarith

theorem round3_ge (x : ℚ) (h : (2 : ℚ)/5 ≤ x) : (2 : ℚ)/5 ≤ round3 x := by
  unfold round3
  have h1 : (400 : ℤ) ≤ rhe (1000 * x) := by
    apply rhe_ge_of_int_le
    push_cast
    linarith
  have h2 : (400 : ℚ) ≤ ((rhe (1000 * x)) : ℚ) := by exact_mod_cast h1
  linarith

/-- Python truthiness for an optional rational (`0` and `None` are falsy). -/
def truthyQ : Option ℚ → Bool
  | none => false
  | some q => q ≠ 0

/-- Python truthiness for an optional string (`""` and `None` are falsy). -/
def truthyS : Option String → Bool
  | none => false
  | some s => s ≠ ""

/-- Python `x or y` on optional rationals. -/
def pyOrQ (x y : Option ℚ) : Option ℚ := if truthyQ x then x else y

/-- Python `x or y` on optional strings. -/
def pyOrS (x y : Option String) : Option String := if truthyS x then x else y

/-- Python `x or y` on optional timestamps (a parsed datetime is always
truthy, so truthiness is `isSome`). -/
def pyOrT (x y : Option ℤ) : Option ℤ := if x.isSome then x else y

/-- Seconds per day, used to turn a timestamp difference into
`timedelta.days` (which floors). -/
def secondsPerDay : ℤ := 86400

/-- `timedelta.days` of `now - t`: floor division of the difference in
seconds by 86400. -/
def daysOld (now t : ℤ) : ℤ := Int.fdiv (now - t) secondsPerDay

/-! ## Scorers

`NVDCompleteService._calculate_priority` (nvd_complete_service.py) and
`calculate_priority_score` (ingestion.py).  Timestamps are epoch seconds;
the ISO-8601 parsing performed by the Python code is abstracted away
(a present `published_at` is a parsed instant). -/

namespace NVDCompleteService

/-- The `cvss_weight` local of `_calculate_priority`.  Note the Python
`if cvss_score:` test, which is truthiness: a present score of `0.0`
falls through to the severity branch. -/
def cvss_weight (cvss_score : Option ℚ) (severity : String) : ℚ :=
  if truthyQ cvss_score then cvss_score.getD 0 / 10
  else if severity = "CRITICAL" then 1
  else if severity = "HIGH" then 7/10
  else if severity = "MEDIUM" then 2/5
  else if severity = "LOW" then 1/5
  else 0

/-- The `recency_weight` local of `_calculate_priority`. -/
def recency_weight (published_at : Option ℤ) (now : ℤ) : ℚ :=
  match published_at with
  | none => 0
  | some t =>
    if daysOld now t ≤ 7 then 1
    else if daysOld now t ≤ 30 then 1/2
    else 0

/-- The `exploit_weight` local of `_calculate_priority`. -/
def exploit_weight (exploited : Bool) : ℚ := if exploited then 1 else 0

/-- Embedding of `NVDCompleteService._calculate_priority`. -/
def calculate_priority (cvss_score : Option ℚ) (severity : String)
    (published_at : Option ℤ) (now : ℤ) (exploited : Bool) : ℚ :=
  round3 (cvss_weight cvss_score severity * (2/5)
    + recency_weight published_at now * (1/5)
    + exploit_weight exploited * (2/5))

end NVDCompleteService

/-- The exploitation contribution (+0.5) of `calculate_priority_score`
in backend/ingestion.py. -/
def ingScoreExploit (exploited : Bool) : ℚ := if exploited then 1/2 else 0

/-- The CVSS contribution (`cvss/10 * 0.4` when truthy) of
`calculate_priority_score` in backend/ingestion.py. -/
def ingScoreCvss (cvss_score : Option ℚ) : ℚ :=
  if truthyQ cvss_score then (cvss_score.getD 0 / 10) * (2/5) else 0

/-- The recency contribution (`0.1 * (1 - days_old/30)` when published
within the last 30 days) of `calculate_priority_score` in
backend/ingestion.py. -/
def ingScoreRecency (published : Option ℤ) (now : ℤ) : ℚ :=
  match published with
  | none => 0
  | some t =>
    if daysOld now t < 30 then (1/10) * (1 - (daysOld now t : ℚ) / 30) else 0

/-- Embedding of `calculate_priority_score` (backend/ingestion.py):
+0.5 if exploited, +`cvss/10 * 0.4` when the cvss value is truthy,
+`0.1 * (1 - days_old/30)` when published within the last 30 days,
capped at 1.0 with `min(score, 1.0)`. -/
def calculate_priority_score (exploited : Bool) (cvss_score : Option ℚ)
    (published : Option ℤ) (now : ℤ) : ℚ :=
  let s : ℚ := ingScoreExploit exploited + ingScoreCvss cvss_score
    + ingScoreRecency published now
  if s ≤ 1 then s else 1

/-! ## Bounds of the scoring components -/

theorem cvss_weight_nonneg (cvss_score : Option ℚ) (severity : String)
    (h0 : 0 ≤ cvss_score.getD 0) :
    0 ≤ NVDCompleteService.cvss_weight cvss_score severity := by
  unfold NVDCompleteService.cvss_weight
  repeat' split
  all_goals positivity

theorem cvss_weight_le_one (cvss_score : Option ℚ) (severity : String)
    (h10 : cvss_score.getD 0 ≤ 10) :
    NVDCompleteService.cvss_weight cvss_score severity ≤ 1 := by
  unfold NVDCompleteService.cvss_weight
  repeat' split
  all_goals norm_num
  linarith

theorem recency_weight_nonneg (published_at : Option ℤ) (now : ℤ) :
    0 ≤ NVDCompleteService.recency_weight published_at now := by
  unfold NVDCompleteService.recency_weight
  cases published_at with
  | none => norm_num
  | some t =>
    dsimp only
    repeat' split
    all_goals norm_num

theorem recency_weight_le_one (published_at : Option ℤ) (now : ℤ) :
    NVDCompleteService.recency_weight published_at now ≤ 1 := by
  unfold NVDCompleteService.recency_weight
  cases published_at with
  | none => norm_num
  | some t =>
    dsimp only
    repeat' split
    all_goals norm_num

theorem ingScoreExploit_nonneg (exploited : Bool) : 0 ≤ ingScoreExploit exploited := by
  unfold ingScoreExploit
  split
  all_goals norm_num

theorem ingScoreCvss_nonneg (cvss_score : Option ℚ) (h0 : 0 ≤ cvss_score.getD 0) :
    0 ≤ ingScoreCvss cvss_score := by
  unfold ingScoreCvss
  split
  · positivity
  · norm_num

theorem ingScoreRecency_nonneg (published : Option ℤ) (now : ℤ) :
    0 ≤ ingScoreRecency published now := by
  unfold ingScoreRecency
  cases published with
  | none => norm_num
  | some t =>
    dsimp only
    split
    · rename_i h
      have hd : (daysOld now t : ℚ) ≤ 29 := by
        have : daysOld now t ≤ 29 := by omega
        exact_mod_cast this
      nlinarith
    · norm_num

/-! ## Claim C4: the claimed closed form of the write-time priority score -/

/-- Score formula exactly as claim C4 words it: `base_cvss` is
`cvss_score/10` whenever `cvss_score` is present, otherwise the severity
weight. -/
def claimC4Score (cvss_score : Option ℚ) (severity : String)
    (published_at : Option ℤ) (now : ℤ) (exploited : Bool) : ℚ :=
  let base : ℚ :=
    match cvss_score with
    | some c => c / 10
    | none =>
      if severity = "CRITICAL" then 1
      else if severity = "HIGH" then 7/10
      else if severity = "MEDIUM" then 2/5
      else if severity = "LOW" then 1/5
      else 0
  let recency : ℚ :=
    match published_at with
    | none => 0
    | some t =>
      if daysOld now t ≤ 7 then 1
      else if daysOld now t ≤ 30 then 1/2
      else 0
  let exploit : ℚ := if exploited then 1 else 0
  round3 ((2/5) * base + (1/5) * recency + (2/5) * exploit)

/-- Score formula of claim C4 amended: `base_cvss` is `cvss_score/10`
only when `cvss_score` is present AND nonzero (Python truthiness),
otherwise the severity weight. -/
def claimC4ScoreAmended (cvss_score : Option ℚ) (severity : String)
    (published_at : Option ℤ) (now : ℤ) (exploited : Bool) : ℚ :=
  let base : ℚ :=
    match cvss_score with
    | some c =>
      if c ≠ 0 then c / 10
      else if severity = "CRITICAL" then 1
      else if severity = "HIGH" then 7/10
      else if severity = "MEDIUM" then 2/5
      else if severity = "LOW" then 1/5
      else 0
    | none =>
      if severity = "CRITICAL" then 1
      else if severity = "HIGH" then 7/10
      else if severity = "MEDIUM" then 2/5
      else if severity = "LOW" then 1/5
      else 0
  let recency : ℚ :=
    match published_at with
    | none => 0
    | some t =>
      if daysOld now t ≤ 7 then 1
      else if daysOld now t ≤ 30 then 1/2
      else 0
  let exploit : ℚ := if exploited then 1 else 0
  round3 ((2/5) * base + (1/5) * recency + (2/5) * exploit)

/-- Claim C4 as stated is false on the code: for a vulnerability whose
`cvss_score` is present but equal to `0.0` and whose severity is LOW,
`_calculate_priority` yields 0.08 (the Python `if cvss_score:` truthiness
test discards a zero score and uses the severity weight), while the
claimed formula, which uses `cvss_score/10` whenever the score is
present, yields 0. -/
theorem C4_counterexample :
    NVDCompleteService.calculate_priority (some 0) "LOW" none 0 false = 8/100
    ∧ claimC4Score (some 0) "LOW" none 0 false = 0 := by
  constructor
  · simp only [NVDCompleteService.calculate_priority, NVDCompleteService.cvss_weight,
      NVDCompleteService.recency_weight, NVDCompleteService.exploit_weight,
      truthyQ, round3, rhe, ratFloor_eq_floor, String.reduceEq, reduceIte]
    norm_num
  · simp only [claimC4Score, round3, rhe, ratFloor_eq_floor, String.reduceEq, reduceIte]
    norm_num

/-- Claim C4 amended: the priority score computed on write by
`_calculate_priority` equals `round3(0.4*base_cvss + 0.2*recency +
0.4*exploit)` where `base_cvss` is `cvss_score/10` when `cvss_score` is
present and NONZERO and otherwise the severity weight (CRITICAL 1.0,
HIGH 0.7, MEDIUM 0.4, LOW 0.2, else 0.0), recency is 1.0 for age at most
7 days, 0.5 for age at most 30 days, else 0.0 (0.0 when `published_at`
is absent), and exploit is 1.0 iff exploited; in particular severity
MEDIUM, cvss 4.0, published 10 days ago and not exploited scores exactly
0.26. -/
theorem C4_priority_score_formula :
    (∀ (cvss_score : Option ℚ) (severity : String) (published_at : Option ℤ)
      (now : ℤ) (exploited : Bool),
      NVDCompleteService.calculate_priority cvss_score severity published_at now exploited
        = claimC4ScoreAmended cvss_score severity published_at now exploited)
    ∧ NVDCompleteService.calculate_priority (some 4) "MEDIUM" (some 0) (10 * 86400) false
        = 26/100 := by
  constructor
  · intro cvss_score severity published_at now exploited
    unfold NVDCompleteService.calculate_priority claimC4ScoreAmended
      NVDCompleteService.cvss_weight NVDCompleteService.recency_weight
      NVDCompleteService.exploit_weight
    cases cvss_score with
    | none => simp [truthyQ]; ring_nf
    | some c =>
      by_cases hc : c = 0
      · simp [truthyQ, hc]; ring_nf
      · simp [truthyQ, hc]; ring_nf
  · have hd : Int.fdiv (10 * 86400 - 0) 86400 = 10 := by decide
    simp only [NVDCompleteService.calculate_priority, NVDCompleteService.cvss_weight,
      NVDCompleteService.recency_weight, NVDCompleteService.exploit_weight,
      truthyQ, daysOld, secondsPerDay, hd, round3, rhe, ratFloor_eq_floor]
    norm_num

/-! ## Claim C5: bounds of both priority scorers -/

/-- Claim C5: for every vulnerability (cvss score, when present, in
[0, 10]), on both code paths that compute `priority_score`
(`NVDCompleteService._calculate_priority` and ingestion.py
`calculate_priority_score`) the score is within [0, 1], and an exploited
vulnerability scores at least 0.4. -/
theorem C5_priority_score_bounds (cvss_score : Option ℚ) (severity : String)
    (published_at : Option ℤ) (now : ℤ) (exploited : Bool)
    (h0 : 0 ≤ cvss_score.getD 0) (h10 : cvss_score.getD 0 ≤ 10) :
    (0 ≤ NVDCompleteService.calculate_priority cvss_score severity published_at now exploited
      ∧ NVDCompleteService.calculate_priority cvss_score severity published_at now exploited ≤ 1
      ∧ (exploited = true →
          2/5 ≤ NVDCompleteService.calculate_priority cvss_score severity published_at now exploited))
    ∧ (0 ≤ calculate_priority_score exploited cvss_score published_at now
      ∧ calculate_priority_score exploited cvss_score published_at now ≤ 1
      ∧ (exploited = true →
          2/5 ≤ calculate_priority_score exploited cvss_score published_at now)) := by
  have hcw0 := cvss_weight_nonneg cvss_score severity h0
  have hcw1 := cvss_weight_le_one cvss_score severity h10
  have hrw0 := recency_weight_nonneg published_at now
  have hrw1 := recency_weight_le_one published_at now
  refine ⟨⟨?_, ?_, ?_⟩, ?_⟩
  · unfold NVDCompleteService.calculate_priority
    apply round3_bounds_low
    unfold NVDCompleteService.exploit_weight
    split
    all_goals nlinarith
  · unfold NVDCompleteService.calculate_priority
    apply round3_le_one
    unfold NVDCompleteService.exploit_weight
    split
    all_goals nlinarith
  · intro hex
    unfold NVDCompleteService.calculate_priority
    apply round3_ge
    unfold NVDCompleteService.exploit_weight
    rw [hex]
    simp only [if_true]
    nlinarith
  · have he0 := ingScoreExploit_nonneg exploited
    have hc0 := ingScoreCvss_nonneg cvss_score h0
    have hr0 := ingScoreRecency_nonneg published_at now
    unfold calculate_priority_score
    dsimp only
    refine ⟨?_, ?_, ?_⟩
    · split
      · linarith
      · norm_num
    · split
      · linarith
      · norm_num
    · intro hex
      have he : ingScoreExploit exploited = 1/2 := by
        unfold ingScoreExploit
        rw [hex]
        norm_num
      split
      · linarith
      · norm_num

/-- Witness for C5 at cvss 4.0, severity MEDIUM, no publication date,
exploited. -/
theorem C5_witness :
    (0 ≤ ((some 4 : Option ℚ)).getD 0 ∧ ((some 4 : Option ℚ)).getD 0 ≤ 10)
    ∧ ((0 ≤ NVDCompleteService.calculate_priority (some 4) "MEDIUM" none 0 true
      ∧ NVDCompleteService.calculate_priority (some 4) "MEDIUM" none 0 true ≤ 1
      ∧ (true = true →
          2/5 ≤ NVDCompleteService.calculate_priority (some 4) "MEDIUM" none 0 true))
    ∧ (0 ≤ calculate_priority_score true (some 4) none 0
      ∧ calculate_priority_score true (some 4) none 0 ≤ 1
      ∧ (true = true → 2/5 ≤ calculate_priority_score true (some 4) none 0))) :=
  ⟨⟨by norm_num, by norm_num⟩,
    C5_priority_score_bounds (some 4) "MEDIUM" none 0 true (by norm_num) (by norm_num)⟩

/-! ## Data model

The `vulnerabilities` table row (backend/models.py), restricted to the
columns the pipeline writes.  JSON list columns are Lean lists; a stored
reference is either a dict (url/source/tags) or a bare string, as
handled by the `isinstance` branches of `_process_cve`. -/

/-- A reference dict as written by the pipeline:
`{"url": ..., "source": ..., "tags": [...]}`. -/
structure Reference where
  url : String
  source : String
  tags : List String
deriving DecidableEq

/-- A value of the JSON `references` column: dict or legacy bare string. -/
inductive StoredRef where
  | dict (r : Reference)
  | str (s : String)
deriving DecidableEq

/-- The url extracted from a stored reference by the merge loop of
`_process_cve` (`r.get("url")` for dicts, the string itself otherwise). -/
def StoredRef.urlOf : StoredRef → Option String
  | .dict r => some r.url
  | .str s => some s

/-- Python `list(set(xs))`, modelled as a first-occurrence dedup (the
claims about it are set-level, so the order convention is harmless). -/
def dedupKeepFirst {α : Type} [DecidableEq α] : List α → List α
  | [] => []
  | a :: l => a :: (dedupKeepFirst l).filter (fun b => b ≠ a)

/-- Row of the `vulnerabilities` table (pipeline-written columns). -/
structure Row where
  cve_id : String
  title : String
  description : Option String
  cvss_score : Option ℚ
  cvss_vector : Option String
  severity : String
  published_at : Option ℤ
  modified_at : Option ℤ
  exploited_in_the_wild : Bool
  cisa_due_date : Option ℤ
  cwe_ids : List String
  vendors : List String
  products : List String
  affected_products : List String
  references : List StoredRef
  sources : List String
  source_tags : List String
  priority_score : ℚ
  llm_processed : Bool
  created_at : ℤ
  updated_at : ℤ
deriving DecidableEq

/-! ## NVD merge (`NVDCompleteService._process_cve`) -/

/-- The values `_process_cve` extracts from one NVD API record before the
existing-row check (description, metrics, CWEs, references, CPE-derived
vendor/product lists). -/
structure ParsedCve where
  cve_id : String
  description : Option String
  cvss_score : Option ℚ
  cvss_vector : Option String
  severity : String
  published : Option ℤ
  modified : Option ℤ
  cwe_ids : List String
  reference_list : List Reference
  vendor_list : List String
  product_list : List String
  affected_products : List String
deriving DecidableEq

/-- A raw NVD reference entry (`{"url": ..., "tags": [...]}`). -/
structure RawReference where
  url : Option String
  tags : List String
deriving DecidableEq

/-- The reference extraction of `_process_cve`: `references[:20]`, keeping
entries with a url, each becoming `{"url": url, "source": "nvd", "tags": tags}`. -/
def extract_reference_list (references : List RawReference) : List Reference :=
  (references.take 20).filterMap
    (fun r => r.url.map (fun u => { url := u, source := "nvd", tags := r.tags }))

/-- The existing-row branch of `_process_cve`: incoming truthy scalars
overwrite, severity overwrites unless UNKNOWN, set-like lists are merged
with `list(set(...))`, references are appended when their url is not
among the existing urls, "nvd" is added to sources, and the priority is
recomputed from the merged fields. -/
def process_cve_update (row : Row) (p : ParsedCve) (now : ℤ) : Row :=
  let description := pyOrS p.description row.description
  let cvss_score := pyOrQ p.cvss_score row.cvss_score
  let cvss_vector := pyOrS p.cvss_vector row.cvss_vector
  let severity := if p.severity ≠ "UNKNOWN" then p.severity else row.severity
  let published_at := pyOrT p.published row.published_at
  let modified_at := pyOrT p.modified row.modified_at
  let cwe_ids := dedupKeepFirst (row.cwe_ids ++ p.cwe_ids)
  let existing_urls := row.references.map StoredRef.urlOf
  let references := row.references
    ++ (p.reference_list.filter
        (fun r => decide (¬ some r.url ∈ existing_urls))).map StoredRef.dict
  let vendors := dedupKeepFirst (row.vendors ++ p.vendor_list)
  let products := dedupKeepFirst (row.products ++ p.product_list)
  let affected_products := dedupKeepFirst (row.affected_products ++ p.affected_products)
  let sources := if "nvd" ∈ row.sources then row.sources else row.sources ++ ["nvd"]
  { row with
    description := description
    cvss_score := cvss_score
    cvss_vector := cvss_vector
    severity := severity
    published_at := published_at
    modified_at := modified_at
    cwe_ids := cwe_ids
    references := references
    vendors := vendors
    products := products
    affected_products := affected_products
    sources := sources
    priority_score := NVDCompleteService.calculate_priority cvss_score severity
      published_at now row.exploited_in_the_wild
    updated_at := now }

/-- The new-row branch of `_process_cve`. -/
def process_cve_insert (p : ParsedCve) (now : ℤ) : Row :=
  { cve_id := p.cve_id
    title := "Vulnerability in " ++ p.cve_id
    description := p.description
    cvss_score := p.cvss_score
    cvss_vector := p.cvss_vector
    severity := p.severity
    published_at := p.published
    modified_at := p.modified
    exploited_in_the_wild := false
    cisa_due_date := none
    cwe_ids := p.cwe_ids
    references := p.reference_list.map StoredRef.dict
    vendors := p.vendor_list
    products := p.product_list
    affected_products := p.affected_products
    sources := ["nvd"]
    source_tags := []
    priority_score := NVDCompleteService.calculate_priority p.cvss_score p.severity
      p.published now false
    llm_processed := false
    created_at := now
    updated_at := now }

/-- `_process_cve` after extraction: update when the row exists, insert
otherwise. -/
def process_cve (existing : Option Row) (p : ParsedCve) (now : ℤ) : Row :=
  match existing with
  | some row => process_cve_update row p now
  | none => process_cve_insert p now

/-! ## CISA KEV refresh (`CISAKEVService.update_exploited_vulnerabilities`) -/

/-- The per-row body of the KEV update loop: mark as exploited, add the
"cisa_kev" source when missing, recompute priority with exploited=True.
No other column is touched. -/
def kev_mark_exploited (row : Row) (now : ℤ) : Row :=
  let sources := if "cisa_kev" ∈ row.sources then row.sources
    else row.sources ++ ["cisa_kev"]
  { row with
    exploited_in_the_wild := true
    sources := sources
    priority_score := NVDCompleteService.calculate_priority row.cvss_score
      row.severity row.published_at now true }

/-! ## NDJSON ingestion (backend/ingestion.py) -/

/-- ASCII upper-casing of one character, as Python `str.upper()` acts on
the ASCII inputs relevant here. -/
def pyUpperChar (c : Char) : Char :=
  if 97 ≤ c.toNat ∧ c.toNat ≤ 122 then Char.ofNat (c.toNat - 32) else c

/-- Python `s.upper()`. -/
def pyUpperStr (s : String) : String := String.mk (s.data.map pyUpperChar)

/-- Embedding of `normalize_severity` (ingestion.py): upper-case, keep
known values, anything else (including absent) becomes UNKNOWN. -/
def normalize_severity (severity : Option String) : String :=
  match severity with
  | none => "UNKNOWN"
  | some s =>
    let su := pyUpperStr s
    if su ∈ ["CRITICAL", "HIGH", "MEDIUM", "LOW", "UNKNOWN"] then su else "UNKNOWN"

/-- Python `x or y` with a non-optional fallback string. -/
def pyOrSD (x : Option String) (y : String) : String :=
  match x with
  | some s => if s ≠ "" then s else y
  | none => y

/-- Python `x or y` on optional string lists (an empty list is falsy). -/
def pyOrLD (x : Option (List String)) (y : List String) : List String :=
  match x with
  | some l => if l ≠ [] then l else y
  | none => y

/-- One NDJSON input record as read by `ingest_vulnerability`; only the
keys the function looks up.  Date strings are abstracted to parsed
timestamps (so `parse_datetime`/`parse_date` are identities on present
values and `None` on absent ones). -/
structure NdjsonRecord where
  title : Option String
  vulnerabilityName : Option String
  description : Option String
  shortDescription : Option String
  cvss_score : Option ℚ
  cvss : Option ℚ
  cvss_vector : Option String
  severity : Option String
  published : Option ℤ
  published_at : Option ℤ
  dateAdded : Option ℤ
  last_modified : Option ℤ
  modified_at : Option ℤ
  exploited_in_the_wild : Bool
  cisa_due_date : Option ℤ
  dueDate : Option ℤ
  cwe_ids : Option (List String)
  cwes : Option (List String)
  affected_products : List String
  vendors : List String
  products : List String
  references : List StoredRef
  source : Option String
  sources : Option (List String)
  source_tags : List String
deriving DecidableEq

/-- The `sources` entry of the `vuln_dict` built by `ingest_vulnerability`:
`vuln_data.get("sources", [source]) if vuln_data.get("source") else []`. -/
def ingSources (sources : Option (List String)) (source : Option String) : List String :=
  match source with
  | some s => if s ≠ "" then sources.getD [s] else []
  | none => []

/-- The existing-row branch of `ingest_vulnerability` (ingestion.py):
every `vuln_dict` entry except `cve_id` is assigned onto the existing
row with `setattr`, i.e. the incoming record REPLACES the stored values
(including `exploited_in_the_wild`, which defaults to False when the
incoming record lacks the flag), then `updated_at` is advanced. -/
def ingest_vulnerability_update (row : Row) (d : NdjsonRecord) (now : ℤ) : Row :=
  { row with
    title := pyOrSD d.title (pyOrSD d.vulnerabilityName row.cve_id)
    description := pyOrS d.description d.shortDescription
    cvss_score := pyOrQ d.cvss_score d.cvss
    cvss_vector := d.cvss_vector
    severity := normalize_severity d.severity
    published_at := pyOrT d.published (pyOrT d.published_at d.dateAdded)
    modified_at := pyOrT d.last_modified d.modified_at
    exploited_in_the_wild := d.exploited_in_the_wild
    cisa_due_date := pyOrT d.cisa_due_date d.dueDate
    cwe_ids := pyOrLD d.cwe_ids (pyOrLD d.cwes [])
    affected_products := d.affected_products
    vendors := d.vendors
    products := d.products
    references := d.references
    sources := ingSources d.sources d.source
    source_tags := d.source_tags
    priority_score := calculate_priority_score d.exploited_in_the_wild d.cvss_score
      (pyOrT d.published d.published_at) now
    updated_at := now }

/-! ## Claim C1: monotonicity of exploited_in_the_wild across the pipeline -/

/-- A stored row already marked as exploited in the wild. -/
def exampleRowC1 : Row :=
  { cve_id := "CVE-2024-0001"
    title := "Vulnerability in CVE-2024-0001"
    description := some "remote code execution"
    cvss_score := some (15/2)
    cvss_vector := none
    severity := "HIGH"
    published_at := some 0
    modified_at := none
    exploited_in_the_wild := true
    cisa_due_date := none
    cwe_ids := []
    vendors := []
    products := []
    affected_products := []
    references := []
    sources := ["nvd", "cisa_kev"]
    source_tags := []
    priority_score := 7/10
    llm_processed := false
    created_at := 0
    updated_at := 0 }

/-- An NDJSON record for the same CVE that carries no
`exploited_in_the_wild` flag (Python `get` defaults it to False). -/
def exampleNdjsonC1 : NdjsonRecord :=
  { title := some "Vulnerability in CVE-2024-0001"
    vulnerabilityName := none
    description := some "remote code execution"
    shortDescription := none
    cvss_score := some (15/2)
    cvss := none
    cvss_vector := none
    severity := some "HIGH"
    published := some 0
    published_at := none
    dateAdded := none
    last_modified := none
    modified_at := none
    exploited_in_the_wild := false
    cisa_due_date := none
    dueDate := none
    cwe_ids := none
    cwes := none
    affected_products := []
    vendors := []
    products := []
    references := []
    source := some "deduplicated_cves"
    sources := none
    source_tags := [] }

/-- Claim C1 as stated is false on the code: the NDJSON ingestion path
(`ingest_vulnerability`, existing-row branch) assigns every `vuln_dict`
entry onto the row, so a record without the flag resets a stored
`exploited_in_the_wild = true` back to false. -/
theorem C1_counterexample :
    exampleRowC1.exploited_in_the_wild = true
    ∧ (ingest_vulnerability_update exampleRowC1 exampleNdjsonC1 1).exploited_in_the_wild
        = false :=
  ⟨rfl, rfl⟩

/-- Claim C1 amended: the NVD merge never touches
`exploited_in_the_wild` (and a fresh NVD insert sets it to false), the
CISA KEV refresh only sets it to true, but the NDJSON ingestion
update REPLACES it with the incoming record flag (false when the record
lacks the key) and therefore can clear it. -/
theorem C1_exploited_monotonic_amended :
    (∀ (row : Row) (p : ParsedCve) (now : ℤ),
      (process_cve_update row p now).exploited_in_the_wild = row.exploited_in_the_wild)
    ∧ (∀ (p : ParsedCve) (now : ℤ),
      (process_cve_insert p now).exploited_in_the_wild = false)
    ∧ (∀ (row : Row) (now : ℤ),
      (kev_mark_exploited row now).exploited_in_the_wild = true)
    ∧ (∀ (row : Row) (d : NdjsonRecord) (now : ℤ),
      (ingest_vulnerability_update row d now).exploited_in_the_wild
        = d.exploited_in_the_wild) :=
  ⟨fun _ _ _ => rfl, fun _ _ => rfl, fun _ _ => rfl, fun _ _ _ => rfl⟩

/-! ## Claim C2: scalar precedence in the NVD merge -/

/-- A stored row whose scalar fields are all present and not UNKNOWN. -/
def exampleRowC2 : Row :=
  { cve_id := "CVE-2024-0002"
    title := "Vulnerability in CVE-2024-0002"
    description := some "Old description"
    cvss_score := some 5
    cvss_vector := some "OLD-VECTOR"
    severity := "MEDIUM"
    published_at := some 100
    modified_at := some 100
    exploited_in_the_wild := false
    cisa_due_date := none
    cwe_ids := []
    vendors := []
    products := []
    affected_products := []
    references := []
    sources := ["nvd"]
    source_tags := []
    priority_score := 1/5
    llm_processed := false
    created_at := 0
    updated_at := 0 }

/-- An incoming NVD record with different present scalar values, and a
modification timestamp EARLIER than the stored one. -/
def exampleParsedC2 : ParsedCve :=
  { cve_id := "CVE-2024-0002"
    description := some "New description"
    cvss_score := some 8
    cvss_vector := some "NEW-VECTOR"
    severity := "HIGH"
    published := some 50
    modified := some 50
    cwe_ids := []
    reference_list := []
    vendor_list := []
    product_list := []
    affected_products := [] }

/-- Claim C2 as stated is false on the code: with the existing
description, cvss, vector, severity and published_at all present and not
UNKNOWN, `_process_cve` stores the INCOMING values, not the existing
ones; and `modified_at` becomes the incoming value 50, not the later of
the two (the stored 100). -/
theorem C2_counterexample :
    (process_cve_update exampleRowC2 exampleParsedC2 200).description
        = some "New description"
    ∧ (process_cve_update exampleRowC2 exampleParsedC2 200).cvss_score = some 8
    ∧ (process_cve_update exampleRowC2 exampleParsedC2 200).severity = "HIGH"
    ∧ (process_cve_update exampleRowC2 exampleParsedC2 200).published_at = some 50
    ∧ (process_cve_update exampleRowC2 exampleParsedC2 200).modified_at = some 50
    ∧ exampleRowC2.description = some "Old description"
    ∧ exampleRowC2.modified_at = some 100 := by
  refine ⟨?_, ?_, ?_, ?_, ?_, rfl, rfl⟩
  all_goals decide

/-- Claim C2 amended: in the NVD merge the INCOMING value wins whenever
it is present and truthy (non-empty, nonzero; for severity: not
UNKNOWN), and the existing value is kept only otherwise; `title` is
never changed by a merge; `modified_at` takes the incoming value when
present (not the later of the two). -/
theorem C2_scalar_merge_amended :
    ∀ (row : Row) (p : ParsedCve) (now : ℤ),
      (process_cve_update row p now).title = row.title
      ∧ (process_cve_update row p now).description
          = (if truthyS p.description then p.description else row.description)
      ∧ (process_cve_update row p now).cvss_score
          = (if truthyQ p.cvss_score then p.cvss_score else row.cvss_score)
      ∧ (process_cve_update row p now).cvss_vector
          = (if truthyS p.cvss_vector then p.cvss_vector else row.cvss_vector)
      ∧ (process_cve_update row p now).severity
          = (if p.severity ≠ "UNKNOWN" then p.severity else row.severity)
      ∧ (process_cve_update row p now).published_at
          = (if p.published.isSome then p.published else row.published_at)
      ∧ (process_cve_update row p now).modified_at
          = (if p.modified.isSome then p.modified else row.modified_at) :=
  fun _ _ _ => ⟨rfl, rfl, rfl, rfl, rfl, rfl, rfl⟩

/-! ## Properties of dedupKeepFirst and the Python or-helpers -/

theorem mem_dedupKeepFirst {α : Type} [DecidableEq α] (a : α) (l : List α) :
    a ∈ dedupKeepFirst l ↔ a ∈ l := by
  induction l with
  | nil => simp [dedupKeepFirst]
  | cons b l ih =>
    by_cases hab : a = b
    · simp [dedupKeepFirst, hab]
    · simp [dedupKeepFirst, List.mem_filter, hab, ih]

theorem dedupKeepFirst_nodup {α : Type} [DecidableEq α] (l : List α) :
    (dedupKeepFirst l).Nodup := by
  induction l with
  | nil => simp [dedupKeepFirst]
  | cons b l ih =>
    simp only [dedupKeepFirst, List.nodup_cons, List.mem_filter]
    constructor
    · simp
    · exact ih.filter _

theorem dedupKeepFirst_eq_self {α : Type} [DecidableEq α] {l : List α}
    (h : l.Nodup) : dedupKeepFirst l = l := by
  induction l with
  | nil => rfl
  | cons b l ih =>
    rw [List.nodup_cons] at h
    unfold dedupKeepFirst
    rw [ih h.2]
    congr 1
    apply List.filter_eq_self.mpr
    intro x hx
    simp only [ne_eq, decide_eq_true_eq]
    intro hxb
    exact h.1 (hxb ▸ hx)

theorem dedupKeepFirst_filter {α : Type} [DecidableEq α] (p : α → Bool)
    (l : List α) :
    (dedupKeepFirst l).filter p = dedupKeepFirst (l.filter p) := by
  induction l with
  | nil => rfl
  | cons b l ih =>
    simp only [dedupKeepFirst, List.filter_cons]
    by_cases hb : p b = true
    · simp only [hb, if_true, dedupKeepFirst, List.filter_cons, decide_True]
      rw [← ih, List.filter_comm]
    · simp only [hb, if_false, Bool.false_eq_true]
      rw [← ih, List.filter_comm]
      apply List.filter_eq_self.mpr
      intro x hx
      have hpx : p x = true := (List.mem_filter.mp hx).2
      simp only [ne_eq, decide_eq_true_eq]
      intro hxb
      subst hxb
      exact hb hpx

theorem dedupKeepFirst_append_subset {α : Type} [DecidableEq α] {l m : List α}
    (hl : l.Nodup) (hm : ∀ x ∈ m, x ∈ l) : dedupKeepFirst (l ++ m) = l := by
  induction l generalizing m with
  | nil =>
    have : m = [] := List.eq_nil_iff_forall_not_mem.mpr (fun x hx => by
      simpa using hm x hx)
    subst this
    rfl
  | cons a l ih =>
    rw [List.nodup_cons] at hl
    rw [List.cons_append]
    simp only [dedupKeepFirst]
    congr 1
    rw [dedupKeepFirst_filter, List.filter_append]
    have hla : l.filter (fun b => decide (b ≠ a)) = l := by
      apply List.filter_eq_self.mpr
      intro x hx
      simp only [ne_eq, decide_eq_true_eq]
      intro hxa
      exact hl.1 (hxa ▸ hx)
    rw [hla]
    apply ih hl.2
    intro x hx
    rw [List.mem_filter] at hx
    have hxl := hm x hx.1
    rcases List.mem_cons.mp hxl with h | h
    · exfalso
      revert hx
      simp [h]
    · exact h

theorem pyOrS_self (x : Option String) : pyOrS x x = x := by
  unfold pyOrS
  split
  all_goals rfl

theorem pyOrS_idem (x y : Option String) : pyOrS x (pyOrS x y) = pyOrS x y := by
  unfold pyOrS
  split
  all_goals rfl

theorem pyOrQ_self (x : Option ℚ) : pyOrQ x x = x := by
  unfold pyOrQ
  split
  all_goals rfl

theorem pyOrQ_idem (x y : Option ℚ) : pyOrQ x (pyOrQ x y) = pyOrQ x y := by
  unfold pyOrQ
  split
  all_goals rfl

theorem pyOrT_self (x : Option ℤ) : pyOrT x x = x := by
  unfold pyOrT
  split
  all_goals rfl

theorem pyOrT_idem (x y : Option ℤ) : pyOrT x (pyOrT x y) = pyOrT x y := by
  unfold pyOrT
  split
  all_goals rfl


theorem calculate_priority_time_congr (c : Option ℚ) (s : String) (pub : Option ℤ)
    (t1 t2 : ℤ) (e : Bool)
    (h : NVDCompleteService.recency_weight pub t2 = NVDCompleteService.recency_weight pub t1) :
    NVDCompleteService.calculate_priority c s pub t2 e
      = NVDCompleteService.calculate_priority c s pub t1 e := by
  unfold NVDCompleteService.calculate_priority
  rw [h]

theorem refs_append_filter_eq_self (rs : List StoredRef) (ps : List Reference)
    (hall : ∀ r ∈ ps, some r.url ∈ rs.map StoredRef.urlOf) :
    rs ++ (ps.filter
      (fun q => decide (¬ some q.url ∈ rs.map StoredRef.urlOf))).map StoredRef.dict = rs := by
  have hnil : ps.filter
      (fun q => decide (¬ some q.url ∈ rs.map StoredRef.urlOf)) = [] := by
    apply List.filter_eq_nil_iff.mpr
    intro r hr
    simpa using hall r hr
  rw [hnil]
  simp

theorem refs_mem_dict_urls (ps : List Reference) :
    ∀ r ∈ ps, some r.url ∈ (ps.map StoredRef.dict).map StoredRef.urlOf := by
  intro r hr
  rw [List.map_map]
  exact List.mem_map.mpr ⟨r, hr, rfl⟩

theorem refs_merge_covers (rs : List StoredRef) (ps : List Reference) :
    ∀ r ∈ ps, some r.url ∈ ((rs ++ (ps.filter
      (fun q => decide (¬ some q.url ∈ rs.map StoredRef.urlOf))).map StoredRef.dict).map
        StoredRef.urlOf) := by
  intro r hr
  rw [List.map_append, List.mem_append]
  by_cases h : some r.url ∈ rs.map StoredRef.urlOf
  · exact Or.inl h
  · right
    rw [List.map_map]
    refine List.mem_map.mpr ⟨r, ?_, rfl⟩
    rw [List.mem_filter]
    exact ⟨hr, by simpa using h⟩

/-- Claim C3: for every canonical record (duplicate-free set fields) and
every store state (any existing row, or none), upserting the record
twice in succession (so the recency bucket does not move between the
two upserts) yields the same stored row as upserting it once, modulo
`updated_at`; in particular the second identical upsert adds nothing to
cwe_ids, vendors, products, affected_products, references and sources. -/
theorem C3_upsert_idempotent (existing : Option Row) (p : ParsedCve) (t1 t2 : ℤ)
    (h1 : p.cwe_ids.Nodup) (h2 : p.vendor_list.Nodup) (h3 : p.product_list.Nodup)
    (h4 : p.affected_products.Nodup)
    (hrw : NVDCompleteService.recency_weight (process_cve existing p t1).published_at t2
         = NVDCompleteService.recency_weight (process_cve existing p t1).published_at t1) :
    process_cve (some (process_cve existing p t1)) p t2
      = { process_cve existing p t1 with updated_at := t2 } := by
  cases existing with
  | none =>
    simp only [process_cve, process_cve_insert] at hrw ⊢
    simp only [process_cve_update, Row.mk.injEq]
    repeat' apply And.intro
    all_goals first
      | rfl
      | trivial
      | exact pyOrS_self _
      | exact pyOrQ_self _
      | exact pyOrT_self _
      | exact ite_self _
      | exact dedupKeepFirst_append_subset h1 (fun x hx => hx)
      | exact dedupKeepFirst_append_subset h2 (fun x hx => hx)
      | exact dedupKeepFirst_append_subset h3 (fun x hx => hx)
      | exact dedupKeepFirst_append_subset h4 (fun x hx => hx)
      | exact refs_append_filter_eq_self _ _ (refs_mem_dict_urls p.reference_list)
      | (simp
         done)
      | (rw [pyOrQ_self, pyOrT_self]
         try rw [ite_self]
         exact calculate_priority_time_congr _ _ _ _ _ _ hrw)
  | some row0 =>
    simp only [process_cve, process_cve_update] at hrw ⊢
    simp only [Row.mk.injEq]
    repeat' apply And.intro
    all_goals first
      | rfl
      | trivial
      | exact pyOrS_idem _ _
      | exact pyOrQ_idem _ _
      | exact pyOrT_idem _ _
      | (by_cases hs : p.severity ≠ "UNKNOWN" <;> simp [hs]
         done)
      | exact dedupKeepFirst_append_subset (dedupKeepFirst_nodup _)
          (fun x hx => (mem_dedupKeepFirst x _).mpr (List.mem_append_right _ hx))
      | exact refs_append_filter_eq_self _ _ (refs_merge_covers row0.references p.reference_list)
      | (by_cases hn : "nvd" ∈ row0.sources <;> simp [hn]
         done)
      | (rw [pyOrQ_idem, pyOrT_idem]
         have hsev : (if p.severity ≠ "UNKNOWN" then p.severity
             else (if p.severity ≠ "UNKNOWN" then p.severity else row0.severity))
             = (if p.severity ≠ "UNKNOWN" then p.severity else row0.severity) := by
           by_cases hs : p.severity ≠ "UNKNOWN" <;> simp [hs]
         rw [hsev]
         exact calculate_priority_time_congr _ _ _ _ _ _ hrw)

/-- A concrete parsed NVD record with duplicate-free set fields. -/
def exampleParsedC3 : ParsedCve :=
  { cve_id := "CVE-2024-0003"
    description := some "SQL injection"
    cvss_score := some (98/10)
    cvss_vector := some "CVSS:3.1/AV:N"
    severity := "CRITICAL"
    published := some 0
    modified := some 0
    cwe_ids := ["CWE-89"]
    reference_list := [{ url := "https://nvd.nist.gov/vuln/detail/CVE-2024-0003"
                         source := "nvd", tags := ["Patch"] }]
    vendor_list := ["Microsoft"]
    product_list := ["Windows"]
    affected_products := ["cpe:2.3:a:microsoft:windows:10"]
  }

/-- Witness for C3: upserting a concrete record twice, starting from an
empty store, gives exactly the once-upserted row. -/
theorem C3_witness :
    (exampleParsedC3.cwe_ids.Nodup ∧ exampleParsedC3.vendor_list.Nodup
      ∧ exampleParsedC3.product_list.Nodup ∧ exampleParsedC3.affected_products.Nodup
      ∧ NVDCompleteService.recency_weight (process_cve none exampleParsedC3 0).published_at 0
          = NVDCompleteService.recency_weight (process_cve none exampleParsedC3 0).published_at 0)
    ∧ process_cve (some (process_cve none exampleParsedC3 0)) exampleParsedC3 0
        = { process_cve none exampleParsedC3 0 with updated_at := 0 } :=
  ⟨⟨by decide, by decide, by decide, by decide, rfl⟩,
    C3_upsert_idempotent none exampleParsedC3 0 0
      (by decide) (by decide) (by decide) (by decide) rfl⟩

/-! ## Enrichment queue selection (backend/tasks/llm_tasks.py) -/

/-- SQL comparison `published_at >= cutoff`: false on NULL. -/
def pubAtLeast (pub : Option ℤ) (cutoff : ℤ) : Bool :=
  match pub with
  | none => false
  | some t => decide (cutoff ≤ t)

/-- `ORDER BY priority_score DESC` over an in-memory list of rows. -/
def sortByPriorityDesc (rows : List Row) : List Row :=
  rows.mergeSort (fun a b => decide (b.priority_score ≤ a.priority_score))

/-- Embedding of the query built by `process_llm_queue`: filter
`llm_processed == False`, then the priority filter, then order by
`priority_score` descending and limit to the batch size. -/
def process_llm_queue (rows : List Row) (batch_size : ℕ) (priority : String)
    (now : ℤ) : List Row :=
  let q1 := rows.filter (fun r => r.llm_processed == false)
  let q2 :=
    if priority = "high" then
      q1.filter (fun r => r.exploited_in_the_wild || r.severity == "CRITICAL"
        || pubAtLeast r.published_at (now - 7 * secondsPerDay))
    else if priority = "medium" then
      q1.filter (fun r => r.severity == "HIGH"
        || pubAtLeast r.published_at (now - 30 * secondsPerDay))
    else q1
  (sortByPriorityDesc q2).take batch_size

/-- The high-priority selection as the spec words it: vulnerabilities
with `NOT llm_processed AND (exploited_in_the_wild OR severity=CRITICAL
OR published_at >= now - 7d)`, ordered by `priority_score` descending,
truncated to the batch size. -/
def spec_high_selection (rows : List Row) (batch_size : ℕ) (now : ℤ) : List Row :=
  (sortByPriorityDesc (rows.filter (fun r =>
    !r.llm_processed && (r.exploited_in_the_wild || r.severity == "CRITICAL"
      || (match r.published_at with
          | some t => decide (now - 7 * secondsPerDay ≤ t)
          | none => false))))).take batch_size

/-- Claim C9: an enrichment tick with priority `high` and batch size B
dispatches exactly the unprocessed vulnerabilities that are exploited,
CRITICAL, or published within the last 7 days, ordered by
priority_score descending and truncated to the first B. -/
theorem C9_high_priority_selection :
    ∀ (rows : List Row) (batch_size : ℕ) (now : ℤ),
      process_llm_queue rows batch_size "high" now
        = spec_high_selection rows batch_size now := by
  intro rows batch_size now
  unfold process_llm_queue spec_high_selection
  simp only [String.reduceEq, reduceIte, if_pos]
  congr 1
  unfold sortByPriorityDesc
  congr 1
  rw [List.filter_filter]
  apply List.filter_congr
  intro x hx
  unfold pubAtLeast
  cases hl : x.llm_processed
  all_goals cases he : x.exploited_in_the_wild
  all_goals cases hp : x.published_at
  all_goals simp

/-! ## Claim C10: per-record cap of 20 references -/

/-- Claim C10: `_process_cve` keeps at most the first 20 references of an
NVD record (`references[:20]`), so one record contributes at most 20
reference entries: the extracted list has length at most 20, a merge
grows the stored references by at most 20, and a fresh insert stores at
most 20. -/
theorem C10_reference_cap :
    (∀ (raws : List RawReference), (extract_reference_list raws).length ≤ 20)
    ∧ (∀ (raws : List RawReference) (p : ParsedCve) (row : Row) (now : ℤ),
        (process_cve_update row
          { p with reference_list := extract_reference_list raws } now).references.length
          ≤ row.references.length + 20)
    ∧ (∀ (raws : List RawReference) (p : ParsedCve) (now : ℤ),
        (process_cve_insert
          { p with reference_list := extract_reference_list raws } now).references.length
          ≤ 20) := by
  have hext : ∀ (raws : List RawReference), (extract_reference_list raws).length ≤ 20 := by
    intro raws
    unfold extract_reference_list
    calc ((raws.take 20).filterMap _).length
        ≤ (raws.take 20).length := List.length_filterMap_le _ _
      _ ≤ 20 := by
          rw [List.length_take]
          omega
  refine ⟨hext, ?_, ?_⟩
  · intro raws p row now
    show (row.references ++ _).length ≤ row.references.length + 20
    dsimp only
    rw [List.length_append, List.length_map]
    have h1 := List.length_filter_le
      (fun q => decide (¬ some q.url ∈ row.references.map StoredRef.urlOf))
      (extract_reference_list raws)
    have h2 := hext raws
    omega
  · intro raws p now
    show ((extract_reference_list raws).map StoredRef.dict).length ≤ 20
    rw [List.length_map]
    exact hext raws

/-! ## Redis rate limiting (backend/middleware/redis_rate_limit.py)

One client IP is modelled.  A Redis key `rate_limit:{ip}:{minute|hour}:{window}`
is abstracted to the pair (window kind, window id); the key strings for
distinct kinds or distinct window ids are distinct.  `INCR` of an absent
key creates it at 1.  Key expiry only reclaims memory (a new window uses
a fresh key), so it is not modelled. -/

inductive WindowKind where
  | minute
  | hour
deriving DecidableEq

/-- Redis counters relevant to one client: an association list from
(window kind, window id) to the counter value. -/
def getCount : List ((WindowKind × String) × ℕ) → WindowKind × String → ℕ
  | [], _ => 0
  | (k', n) :: rest, k => if k' = k then n else getCount rest k

/-- Redis `INCR key` (creates absent keys at 1). -/
def bump : List ((WindowKind × String) × ℕ) → WindowKind × String →
    List ((WindowKind × String) × ℕ)
  | [], k => [(k, 1)]
  | (k', n) :: rest, k =>
    if k' = k then (k', n + 1) :: rest else (k', n) :: bump rest k

/-- The `rate_limit_info` dict of `RedisRateLimiter.check_rate_limit`
(natural subtraction models Python `max(0, limit - count)`). -/
structure RateInfo where
  limit_minute : ℕ
  limit_hour : ℕ
  remaining_minute : ℕ
  remaining_hour : ℕ
  used_minute : ℕ
  used_hour : ℕ
deriving DecidableEq

/-- Embedding of `RedisRateLimiter.check_rate_limit`: increment both
window counters, then reject when either exceeds its ceiling. -/
def check_rate_limit (st : List ((WindowKind × String) × ℕ))
    (minuteId hourId : String) (requests_per_minute requests_per_hour : ℕ) :
    List ((WindowKind × String) × ℕ) × Bool × RateInfo :=
  let st1 := bump st (WindowKind.minute, minuteId)
  let minute_count := getCount st1 (WindowKind.minute, minuteId)
  let st2 := bump st1 (WindowKind.hour, hourId)
  let hour_count := getCount st2 (WindowKind.hour, hourId)
  let info : RateInfo :=
    { limit_minute := requests_per_minute
      limit_hour := requests_per_hour
      remaining_minute := requests_per_minute - minute_count
      remaining_hour := requests_per_hour - hour_count
      used_minute := minute_count
      used_hour := hour_count }
  if requests_per_minute < minute_count then (st2, false, info)
  else if requests_per_hour < hour_count then (st2, false, info)
  else (st2, true, info)

/-- The part of the middleware response the claim talks about: HTTP
status, the Retry-After header, and the X-RateLimit-Remaining-Minute
header (header values are strings). -/
structure MwResponse where
  status : ℕ
  retry_after : Option String
  remaining_minute_header : String
deriving DecidableEq

/-- Embedding of `redis_rate_limit_middleware` for a non-whitelisted
client on a non-skipped path: run `check_rate_limit`; on rejection
answer 429 with `Retry-After: 60`; either way report the remaining
minute budget in `X-RateLimit-Remaining-Minute`. -/
def redis_rate_limit_middleware (st : List ((WindowKind × String) × ℕ))
    (minuteId hourId : String) (requests_per_minute requests_per_hour : ℕ) :
    List ((WindowKind × String) × ℕ) × MwResponse :=
  let res := check_rate_limit st minuteId hourId requests_per_minute requests_per_hour
  if res.2.1 then
    (res.1, { status := 200, retry_after := none
              remaining_minute_header := toString res.2.2.remaining_minute })
  else
    (res.1, { status := 429, retry_after := some "60"
              remaining_minute_header := toString res.2.2.remaining_minute })

/-- The Redis state after `n` requests of one client inside minute
window `minuteId` (hour window `hourId`), starting from no counters. -/
def stateAfter (minuteId hourId : String)
    (requests_per_minute requests_per_hour : ℕ) : ℕ →
    List ((WindowKind × String) × ℕ)
  | 0 => []
  | n + 1 =>
    (redis_rate_limit_middleware (stateAfter minuteId hourId
      requests_per_minute requests_per_hour n) minuteId hourId
      requests_per_minute requests_per_hour).1

theorem getCount_bump_self (st : List ((WindowKind × String) × ℕ))
    (k : WindowKind × String) : getCount (bump st k) k = getCount st k + 1 := by
  induction st with
  | nil => simp [bump, getCount]
  | cons e rest ih =>
    obtain ⟨k', n⟩ := e
    by_cases h : k' = k
    · simp [bump, getCount, h]
    · simp [bump, getCount, h, ih]

theorem getCount_bump_other (st : List ((WindowKind × String) × ℕ))
    (k k2 : WindowKind × String) (h : k2 ≠ k) :
    getCount (bump st k) k2 = getCount st k2 := by
  induction st with
  | nil =>
    simp only [bump, getCount]
    rw [if_neg (fun e => h e.symm)]
  | cons e rest ih =>
    obtain ⟨k', n⟩ := e
    by_cases hk : k' = k
    · subst hk
      simp [bump, getCount, Ne.symm h]
    · by_cases hk2 : k' = k2
      · subst hk2
        simp [bump, getCount, hk]
      · simp [bump, getCount, hk, hk2, ih]

theorem middleware_state (st : List ((WindowKind × String) × ℕ))
    (m h : String) (C H : ℕ) :
    (redis_rate_limit_middleware st m h C H).1
      = bump (bump st (WindowKind.minute, m)) (WindowKind.hour, h) := by
  unfold redis_rate_limit_middleware check_rate_limit
  dsimp only
  split
  · rfl
  · split
    · rfl
    · rfl

theorem stateAfter_minute (m h : String) (C H n : ℕ) (m2 : String) :
    getCount (stateAfter m h C H n) (WindowKind.minute, m2)
      = if m2 = m then n else 0 := by
  induction n with
  | zero => simp [stateAfter, getCount]
  | succ n ih =>
    rw [stateAfter, middleware_state]
    rw [getCount_bump_other _ _ _ (by simp)]
    by_cases hm : m2 = m
    · subst hm
      rw [getCount_bump_self, ih]
      simp
    · rw [getCount_bump_other _ _ _ (by simp [hm]), ih]
      simp [hm]

theorem stateAfter_hour (m h : String) (C H n : ℕ) (h2 : String) :
    getCount (stateAfter m h C H n) (WindowKind.hour, h2)
      = if h2 = h then n else 0 := by
  induction n with
  | zero => simp [stateAfter, getCount]
  | succ n ih =>
    rw [stateAfter, middleware_state]
    by_cases hh : h2 = h
    · subst hh
      rw [getCount_bump_self, getCount_bump_other _ _ _ (by simp), ih]
      simp
    · rw [getCount_bump_other _ _ _ (by simp [hh]),
        getCount_bump_other _ _ _ (by simp), ih]
      simp [hh]


/-- Claim C6: for a client with per-minute ceiling C (default 60, hour
ceiling H large enough, here N < H within one hour window): among N
requests in one minute window, a request is allowed iff its
post-increment counter is at most C, so exactly the first C succeed; a
rejected request gets HTTP 429 with Retry-After "60" and
X-RateLimit-Remaining-Minute "0"; the first request of the next minute
window is allowed again. -/
theorem C6_rate_limit_window (C H N : ℕ) (m1 m2 hId : String)
    (hC : 1 ≤ C) (hNH : N < H) (hm : m2 ≠ m1) :
    (∀ i : ℕ, i < N →
      ((i + 1 ≤ C →
        (redis_rate_limit_middleware (stateAfter m1 hId C H i) m1 hId C H).2.status = 200)
      ∧ (C < i + 1 →
        (redis_rate_limit_middleware (stateAfter m1 hId C H i) m1 hId C H).2.status = 429
        ∧ (redis_rate_limit_middleware (stateAfter m1 hId C H i) m1 hId C H).2.retry_after
            = some "60"
        ∧ (redis_rate_limit_middleware
            (stateAfter m1 hId C H i) m1 hId C H).2.remaining_minute_header = "0")))
    ∧ (redis_rate_limit_middleware (stateAfter m1 hId C H N) m2 hId C H).2.status = 200 := by
  constructor
  · intro i hi
    have e1 : getCount (bump (stateAfter m1 hId C H i) (WindowKind.minute, m1))
        (WindowKind.minute, m1) = i + 1 := by
      rw [getCount_bump_self, stateAfter_minute]
      simp
    have e2 : getCount (bump (bump (stateAfter m1 hId C H i) (WindowKind.minute, m1))
        (WindowKind.hour, hId)) (WindowKind.hour, hId) = i + 1 := by
      rw [getCount_bump_self, getCount_bump_other _ _ _ (by simp), stateAfter_hour]
      simp
    constructor
    · intro hle
      unfold redis_rate_limit_middleware check_rate_limit
      dsimp only
      rw [e1, e2]
      rw [if_neg (show ¬ C < i + 1 by omega)]
      rw [if_neg (show ¬ H < i + 1 by omega)]
      rfl
    · intro hgt
      unfold redis_rate_limit_middleware check_rate_limit
      dsimp only
      rw [e1, e2]
      rw [if_pos (show C < i + 1 by omega)]
      refine ⟨rfl, rfl, ?_⟩
      show toString (C - (i + 1)) = "0"
      rw [show C - (i + 1) = 0 by omega]
      rfl
  · have e1 : getCount (bump (stateAfter m1 hId C H N) (WindowKind.minute, m2))
        (WindowKind.minute, m2) = 1 := by
      rw [getCount_bump_self, stateAfter_minute]
      simp [hm]
    have e2 : getCount (bump (bump (stateAfter m1 hId C H N) (WindowKind.minute, m2))
        (WindowKind.hour, hId)) (WindowKind.hour, hId) = N + 1 := by
      rw [getCount_bump_self, getCount_bump_other _ _ _ (by simp), stateAfter_hour]
      simp
    unfold redis_rate_limit_middleware check_rate_limit
    dsimp only
    rw [e1, e2]
    rw [if_neg (show ¬ C < 1 by omega)]
    rw [if_neg (show ¬ H < N + 1 by omega)]
    rfl

/-- Witness for C6 at the default ceilings 60/minute and 1000/hour with
61 requests in one minute window. -/
theorem C6_witness :
    ((1 : ℕ) ≤ 60 ∧ (61 : ℕ) < 1000 ∧ ("202501010001" : String) ≠ "202501010000")
    ∧ ((∀ i : ℕ, i < 61 →
      ((i + 1 ≤ 60 →
        (redis_rate_limit_middleware (stateAfter "202501010000" "2025010100" 60 1000 i)
          "202501010000" "2025010100" 60 1000).2.status = 200)
      ∧ (60 < i + 1 →
        (redis_rate_limit_middleware (stateAfter "202501010000" "2025010100" 60 1000 i)
          "202501010000" "2025010100" 60 1000).2.status = 429
        ∧ (redis_rate_limit_middleware (stateAfter "202501010000" "2025010100" 60 1000 i)
          "202501010000" "2025010100" 60 1000).2.retry_after = some "60"
        ∧ (redis_rate_limit_middleware (stateAfter "202501010000" "2025010100" 60 1000 i)
          "202501010000" "2025010100" 60 1000).2.remaining_minute_header = "0")))
    ∧ (redis_rate_limit_middleware (stateAfter "202501010000" "2025010100" 60 1000 61)
        "202501010001" "2025010100" 60 1000).2.status = 200) :=
  ⟨⟨by norm_num, by norm_num, by decide⟩,
    C6_rate_limit_window 60 1000 61 "202501010000" "202501010001" "2025010100"
      (by norm_num) (by norm_num) (by decide)⟩


theorem toNat_ofNat_of_valid {n : ℕ} (h : n.isValidChar) : (Char.ofNat n).toNat = n := by
  rw [Char.ofNat, dif_pos h]
  rfl

/-- ASCII lower-casing of one character (Python `str.lower()` on ASCII). -/
def pyLowerChar (c : Char) : Char :=
  if 65 ≤ c.toNat ∧ c.toNat ≤ 90 then Char.ofNat (c.toNat + 32) else c

/-- Python `str.isspace` characters (space, tab, newline, vertical tab,
form feed, carriage return). -/
def pyIsSpace (c : Char) : Bool := c.toNat = 32 || (9 ≤ c.toNat && c.toNat ≤ 13)

/-- Python `s.strip()`: drop whitespace from both ends. -/
def pyStrip (l : List Char) : List Char :=
  (((l.dropWhile pyIsSpace).reverse).dropWhile pyIsSpace).reverse

/-- The regex class `\d`. -/
def isDigitChar (c : Char) : Bool := 48 ≤ c.toNat && c.toNat ≤ 57

/-- Substring test: does `needle` occur contiguously inside `hay`
(Python `needle in hay`)?  An empty needle always occurs. -/
def containsSub (needle : List Char) : List Char → Bool
  | [] => needle.isEmpty
  | c :: rest => needle.isPrefixOf (c :: rest) || containsSub needle rest

/-- An HTTPException as raised by the validators. -/
structure ApiError where
  status_code : ℕ
  detail : String
deriving DecidableEq

/-- The regex `^CVE-\d{4}-\d{4,}$` (CVE_ID_PATTERN in
backend/utils/validators.py). -/
def cve_id_pattern : List Char → Bool
  | 'C' :: 'V' :: 'E' :: '-' :: y1 :: y2 :: y3 :: y4 :: '-' :: ds =>
    isDigitChar y1 && isDigitChar y2 && isDigitChar y3 && isDigitChar y4
      && decide (4 ≤ ds.length) && ds.all isDigitChar
  | _ => false

/-- `cve_id.strip().upper()` as done by `validate_cve_id`. -/
def normalized_cve (l : List Char) : List Char := (pyStrip l).map pyUpperChar

/-- Embedding of `validate_cve_id` (backend/utils/validators.py):
strip and upper-case, then require the CVE pattern, else HTTP 400. -/
def validate_cve_id (cve_id : String) : Except ApiError String :=
  if cve_id_pattern (normalized_cve cve_id.data) then
    .ok (String.mk (normalized_cve cve_id.data))
  else
    .error { status_code := 400, detail := "Invalid CVE ID format" }

/-- Embedding of the `get_vulnerability` endpoint
(backend/api/vulnerabilities.py): validate the id, look the row up by
the normalized id, 404 when absent. -/
def get_vulnerability (cve_id : String) (store : List Row) : Except ApiError Row :=
  match validate_cve_id cve_id with
  | .error e => .error e
  | .ok cid =>
    match store.find? (fun r => r.cve_id == cid) with
    | none => .error { status_code := 404, detail := "Vulnerability not found" }
    | some r => .ok r

/-- The `dangerous_chars` list of `sanitize_search_query`. -/
def dangerous_chars : List String :=
  ["\\", ";", "--", "/*", "*/", "xp_", "sp_", "DROP", "DELETE", "INSERT", "UPDATE"]

/-- Embedding of `sanitize_search_query` (backend/utils/validators.py):
strip, enforce length in [2, max_length], and reject queries whose
upper-casing contains one of the dangerous substrings. -/
def sanitize_search_query (query : String) (max_length : ℕ) : Except ApiError String :=
  let q := pyStrip query.data
  if max_length < q.length then
    .error { status_code := 400, detail := "Search query too long" }
  else if q.length < 2 then
    .error { status_code := 400, detail := "Search query too short" }
  else if dangerous_chars.any (fun d => containsSub d.data (q.map pyUpperChar)) then
    .error { status_code := 400, detail := "Search query contains invalid characters" }
  else
    .ok (String.mk q)

/-- The `ilike '%q%'` test of the search endpoint: case-insensitive
substring match, false on SQL NULL. -/
def ilike_contains (q : String) (field : Option String) : Bool :=
  match field with
  | none => false
  | some s => containsSub (q.data.map pyLowerChar) (s.data.map pyLowerChar)

/-- The text-search predicate of `/search`: `q` against cve_id, title
and description. -/
def matches_q (q : String) (r : Row) : Bool :=
  ilike_contains q (some r.cve_id) || ilike_contains q (some r.title)
    || ilike_contains q r.description

/-- Embedding of the `search_vulnerabilities` endpoint
(backend/api/search.py), restricted to the text query, severity and
exploited filters, default priority_score/desc ordering, and
pagination; the remaining optional filters act the same way and are
omitted.  Note: the endpoint performs NO validation of `q` (it never
calls `sanitize_search_query`), so it always returns a result page. -/
def search_vulnerabilities (q severity : Option String) (exploited : Option Bool)
    (page page_size : ℕ) (rows : List Row) : Except ApiError (List Row) :=
  let q0 := rows.filter (fun r => r.cve_id.startsWith "CVE-")
  let q1 := match q with
    | some s => if s ≠ "" then q0.filter (matches_q s) else q0
    | none => q0
  let q2 := match severity with
    | some s => if s ≠ "" then q1.filter
        (fun r => r.severity == String.mk (s.data.map pyUpperChar)) else q1
    | none => q1
  let q3 := match exploited with
    | some b => q2.filter (fun r => r.exploited_in_the_wild == b)
    | none => q2
  .ok (((sortByPriorityDesc q3).drop ((page - 1) * page_size)).take page_size)

theorem pyUpperChar_toNat (c : Char) :
    (pyUpperChar c).toNat
      = if 97 ≤ c.toNat ∧ c.toNat ≤ 122 then c.toNat - 32 else c.toNat := by
  unfold pyUpperChar
  split
  · rename_i h
    apply toNat_ofNat_of_valid
    left
    omega
  · rfl

theorem pyUpperChar_idem (c : Char) : pyUpperChar (pyUpperChar c) = pyUpperChar c := by
  by_cases hc : 97 ≤ c.toNat ∧ c.toNat ≤ 122
  · have h1 : pyUpperChar c = Char.ofNat (c.toNat - 32) := by
      unfold pyUpperChar
      rw [if_pos hc]
    rw [h1]
    unfold pyUpperChar
    rw [if_neg]
    rw [toNat_ofNat_of_valid (show Nat.isValidChar (c.toNat - 32) by left; omega)]
    omega
  · have h1 : pyUpperChar c = c := by
      unfold pyUpperChar
      rw [if_neg hc]
    rw [h1, h1]

theorem pyIsSpace_pyUpperChar (c : Char) : pyIsSpace (pyUpperChar c) = pyIsSpace c := by
  by_cases hc : 97 ≤ c.toNat ∧ c.toNat ≤ 122
  · have h1 : pyIsSpace (pyUpperChar c) = false := by
      unfold pyIsSpace
      rw [pyUpperChar_toNat, if_pos hc]
      simp only [Bool.or_eq_false_iff, Bool.and_eq_false_iff, decide_eq_false_iff_not]
      omega
    have h2 : pyIsSpace c = false := by
      unfold pyIsSpace
      simp only [Bool.or_eq_false_iff, Bool.and_eq_false_iff, decide_eq_false_iff_not]
      omega
    rw [h1, h2]
  · have h1 : pyUpperChar c = c := by
      unfold pyUpperChar
      rw [if_neg hc]
    rw [h1]

theorem pyStrip_map_upper (l : List Char) :
    pyStrip (l.map pyUpperChar) = (pyStrip l).map pyUpperChar := by
  unfold pyStrip
  have hfun : pyIsSpace ∘ pyUpperChar = pyIsSpace := by
    funext c
    exact pyIsSpace_pyUpperChar c
  rw [List.dropWhile_map, hfun, ← List.map_reverse, List.dropWhile_map, hfun,
    ← List.map_reverse]

theorem map_upper_idem (l : List Char) :
    (l.map pyUpperChar).map pyUpperChar = l.map pyUpperChar := by
  rw [List.map_map]
  apply List.map_congr_left
  intro c _
  exact pyUpperChar_idem c

theorem pyUpperChar_digit (c : Char) (h : isDigitChar c = true) : pyUpperChar c = c := by
  unfold isDigitChar at h
  simp only [Bool.and_eq_true, decide_eq_true_eq] at h
  unfold pyUpperChar
  rw [if_neg]
  omega

/-- Claim C8: `get_vulnerability` strips and upper-cases its argument;
a normalized form not matching `CVE-\d{4}-\d{4,}` yields a 400
validation error with no state change; a matching form with no stored
row yields 404; otherwise the row is returned; the lookup is
case-insensitive (upper-casing the input does not change the result)
and the queried stored form is uppercase (the normalized key is fixed
by upper-casing). -/
theorem C8_get_vulnerability :
    (∀ (s : String) (store : List Row),
      cve_id_pattern (normalized_cve s.data) = false →
        get_vulnerability s store
          = .error { status_code := 400, detail := "Invalid CVE ID format" })
    ∧ (∀ (s : String) (store : List Row),
      cve_id_pattern (normalized_cve s.data) = true →
        ((store.find? (fun r => r.cve_id == String.mk (normalized_cve s.data)) = none →
          get_vulnerability s store
            = .error { status_code := 404, detail := "Vulnerability not found" })
        ∧ (∀ r : Row,
          store.find? (fun r2 => r2.cve_id == String.mk (normalized_cve s.data)) = some r →
            get_vulnerability s store = .ok r)))
    ∧ (∀ (s : String) (store : List Row),
      get_vulnerability (String.mk (s.data.map pyUpperChar)) store
        = get_vulnerability s store)
    ∧ (∀ (s : String),
      cve_id_pattern (normalized_cve s.data) = true →
        (normalized_cve s.data).map pyUpperChar = normalized_cve s.data) := by
  refine ⟨?_, ?_, ?_, ?_⟩
  · intro s store h
    simp [get_vulnerability, validate_cve_id, h]
  · intro s store h
    constructor
    · intro hf
      simp [get_vulnerability, validate_cve_id, h, hf]
    · intro r hf
      simp [get_vulnerability, validate_cve_id, h, hf]
  · intro s store
    have hn : normalized_cve (String.mk (s.data.map pyUpperChar)).data
        = normalized_cve s.data := by
      show normalized_cve (s.data.map pyUpperChar) = normalized_cve s.data
      unfold normalized_cve
      rw [pyStrip_map_upper, map_upper_idem]
    unfold get_vulnerability validate_cve_id
    rw [hn]
  · intro s h
    generalize hl : normalized_cve s.data = l at h ⊢
    unfold cve_id_pattern at h
    split at h
    · rename_i y1 y2 y3 y4 ds
      simp only [Bool.and_eq_true, decide_eq_true_eq, List.all_eq_true] at h
      obtain ⟨⟨⟨⟨⟨h1, h2⟩, h3⟩, h4⟩, hlen⟩, hall⟩ := h
      simp only [List.map_cons]
      rw [pyUpperChar_digit _ h1, pyUpperChar_digit _ h2, pyUpperChar_digit _ h3,
        pyUpperChar_digit _ h4]
      have hds : ds.map pyUpperChar = ds := by
        rw [show ds.map pyUpperChar = ds.map id from
          List.map_congr_left (fun c hc => pyUpperChar_digit c (hall c hc)),
          List.map_id]
      rw [hds]
      rw [show pyUpperChar 'C' = 'C' by decide, show pyUpperChar 'V' = 'V' by decide,
        show pyUpperChar 'E' = 'E' by decide, show pyUpperChar '-' = '-' by decide]
    · simp at h


def exampleRowC8 : Row :=
  { cve_id := "CVE-2024-12345"
    title := "Vulnerability in CVE-2024-12345"
    description := some "buffer overflow"
    cvss_score := some 7
    cvss_vector := none
    severity := "HIGH"
    published_at := some 0
    modified_at := none
    exploited_in_the_wild := false
    cisa_due_date := none
    cwe_ids := []
    vendors := []
    products := []
    affected_products := []
    references := []
    sources := ["nvd"]
    source_tags := []
    priority_score := 1
    llm_processed := false
    created_at := 0
    updated_at := 0 }

/-- Witness for C8: looking up " cve-2024-12345 " (lowercase, padded)
finds the row stored under "CVE-2024-12345". -/
theorem C8_witness :
    (cve_id_pattern (normalized_cve (" cve-2024-12345 " : String).data) = true
      ∧ List.find? (fun r2 => r2.cve_id
          == String.mk (normalized_cve (" cve-2024-12345 " : String).data)) [exampleRowC8]
        = some exampleRowC8)
    ∧ get_vulnerability " cve-2024-12345 " [exampleRowC8] = .ok exampleRowC8 :=
  ⟨⟨by decide, by decide⟩,
    (C8_get_vulnerability.2.1 " cve-2024-12345 " [exampleRowC8] (by decide)).2
      exampleRowC8 (by decide)⟩

/-- Claim C7 as stated is false on the code: `search_vulnerabilities`
never calls `sanitize_search_query`, so a 1-character query and a query
containing the SQL keyword DROP are both executed (the endpoint returns
a result page instead of a 4xx rejection), even though
`sanitize_search_query` would reject both. -/
theorem C7_counterexample :
    (sanitize_search_query "x" 500).isOk = false
    ∧ (sanitize_search_query "DROP TABLE users" 500).isOk = false
    ∧ search_vulnerabilities (some "x") none none 1 20 [] = .ok []
    ∧ search_vulnerabilities (some "DROP TABLE users") none none 1 20 [] = .ok [] := by
  refine ⟨by decide, by decide, ?_, ?_⟩
  · simp [search_vulnerabilities, sortByPriorityDesc]
  · simp [search_vulnerabilities, sortByPriorityDesc]

/-- Claim C7 amended: `sanitize_search_query` enforces exactly the
claimed constraints (stripped length in [2, 500] and no dangerous
SQL substring in the upper-cased query), but the `/search` endpoint
does not invoke it: every call is executed regardless of `q`. -/
theorem C7_search_unvalidated :
    (∀ (q severity : Option String) (exploited : Option Bool) (page page_size : ℕ)
      (rows : List Row),
      (search_vulnerabilities q severity exploited page page_size rows).isOk = true)
    ∧ (∀ s : String,
      (sanitize_search_query s 500).isOk = true
        ↔ (2 ≤ (pyStrip s.data).length ∧ (pyStrip s.data).length ≤ 500
          ∧ ∀ d ∈ dangerous_chars,
              containsSub d.data ((pyStrip s.data).map pyUpperChar) = false)) := by
  constructor
  · intro q severity exploited page page_size rows
    rfl
  · intro s
    unfold sanitize_search_query
    dsimp only
    split
    · rename_i h
      constructor
      · intro hok
        simp [Except.isOk, Except.toBool] at hok
      · rintro ⟨h2, h500, hd⟩
        omega
    · rename_i h
      split
      · rename_i h2
        constructor
        · intro hok
          simp [Except.isOk, Except.toBool] at hok
        · rintro ⟨ha, hb, hc⟩
          omega
      · rename_i h2
        split
        · rename_i hd
          constructor
          · intro hok
            simp [Except.isOk, Except.toBool] at hok
          · rintro ⟨ha, hb, hall⟩
            rw [List.any_eq_true] at hd
            obtain ⟨d, hdmem, hdc⟩ := hd
            rw [hall d hdmem] at hdc
            exact absurd hdc (by simp)
        · rename_i hd
          constructor
          · intro _
            refine ⟨by omega, by omega, ?_⟩
            intro d hdm
            by_contra hcon
            apply hd
            rw [List.any_eq_true]
            refine ⟨d, hdm, ?_⟩
            simpa using hcon
          · intro _
            rfl


/-- Witness for C7: the amended theorem applied to the query "log4j"
and an empty store. -/
theorem C7_witness :
    (search_vulnerabilities (some "log4j") none none 1 20 []).isOk = true
    ∧ ((sanitize_search_query "log4j" 500).isOk = true
        ↔ (2 ≤ (pyStrip ("log4j" : String).data).length
          ∧ (pyStrip ("log4j" : String).data).length ≤ 500
          ∧ ∀ d ∈ dangerous_chars,
              containsSub d.data ((pyStrip ("log4j" : String).data).map pyUpperChar)
                = false)) :=
  ⟨C7_search_unvalidated.1 (some "log4j") none none 1 20 [],
    C7_search_unvalidated.2 "log4j"⟩

end OpenThreat
